import Mathlib

/-!
Shallow embedding of the desktop_gremlin runtime core (Rust sources under
`src/`): the event mediator (`src/events.rs`, `src/utils.rs`), the task
scheduler and playback state machine (`src/gremlin.rs::go`,
`src/gremlin.rs::update`, `src/behavior/render.rs`), the texture LRU cache
(`src/utils.rs::TextureCache`), the drag behavior
(`src/behavior/drag.rs::GremlinDrag`), and the entity-definition parser
(`src/gremlin.rs::load_gremlin`).

Conventions of the embedding:
* `u32`/`u16` counters are modelled as `Nat`; the only wrap-sensitive
  operation reached by the claims is `(current_frame + 1) % sprite_count`,
  whose divisor-zero panic is modelled explicitly with `Option`.
* Floating point payloads (`f32` coordinates carried by SDL events) are
  carried opaquely as `Int`: the runtime never computes with them in the
  code under verification, it only moves them around, so only the
  constructor shape matters.
* A `HashMap<Event, Option<EventData>>` frame event set is modelled as the
  ordered list of insertions; a lookup returns the payload of the last
  insertion for the key, matching overwrite-on-insert map semantics.
* External effects (SDL window moves, image decoding, GPU upload) are not
  re-modelled: image decoding success (`sprite_path` present and
  `image::open` succeeding) is abstracted by a `loadable` flag on the
  animation properties, and each GPU texture is represented by an identity
  token allocated from a counter so that "no new texture was created" is
  expressible.
-/

namespace DGremlin

/-! ## Mouse buttons and per-button gesture state (`src/events.rs`, `src/utils.rs`) -/

/-- `events::MouseButton` (mirrors `sdl3::mouse::MouseButton`). -/
inductive MouseButton where
  | left
  | right
  | middle
  | unknown
  | x1
  | x2
deriving DecidableEq, Repr

/-- `utils::MouseKeysState`: one flag per tracked mouse button. -/
structure MouseKeysState where
  left : Bool
  middle : Bool
  right : Bool
deriving DecidableEq, Repr

/-- `MouseKeysState::default()`. -/
def MouseKeysState.init : MouseKeysState := ⟨false, false, false⟩

/-- `utils::MouseKeysState::set_button`: untracked buttons are ignored. -/
def MouseKeysState.set_button (s : MouseKeysState) (b : MouseButton) (v : Bool) :
    MouseKeysState :=
  match b with
  | .left => { s with left := v }
  | .right => { s with right := v }
  | .middle => { s with middle := v }
  | _ => s

/-- `utils::MouseKeysState::is_active`: untracked buttons are never active. -/
def MouseKeysState.is_active (s : MouseKeysState) (b : MouseButton) : Bool :=
  match b with
  | .left => s.left
  | .right => s.right
  | .middle => s.middle
  | _ => false

/-- `events::MouseState`: down/dragging flags per button. -/
structure MouseState where
  down : MouseKeysState
  dragging : MouseKeysState
deriving DecidableEq, Repr

/-- `MouseState::default()`. -/
def MouseState.init : MouseState := ⟨MouseKeysState.init, MouseKeysState.init⟩

/-- `events::MouseState::any_down`. -/
def MouseState.any_down (s : MouseState) : Bool :=
  s.down.left || s.down.right || s.down.middle

/-- `events::MouseState::any_drag`. -/
def MouseState.any_drag (s : MouseState) : Bool :=
  s.dragging.left || s.dragging.right || s.dragging.middle

/-- `events::MouseState::reset_key`: clears both flags of a tracked button,
no-op for untracked buttons. -/
def MouseState.reset_key (s : MouseState) (b : MouseButton) : MouseState :=
  match b with
  | .left => { down := { s.down with left := false },
               dragging := { s.dragging with left := false } }
  | .middle => { down := { s.down with middle := false },
                 dragging := { s.dragging with middle := false } }
  | .right => { down := { s.down with right := false },
                dragging := { s.dragging with right := false } }
  | _ => s

/-! ## Raw and semantic events (`src/events.rs`) -/

/-- The raw SDL events the mediator distinguishes (`sdl3::event::Event`
restricted to the arms `pump_events` matches on; all coordinates are the
opaque float payloads). -/
inductive RawEvent where
  | quit
  | buttonDown (b : MouseButton) (x y : Int)
  | buttonUp (b : MouseButton) (x y : Int)
  | motion (x y xrel yrel : Int)
  | windowMoved (x y : Int)
  | other
deriving DecidableEq, Repr

/-- `events::Event`: the semantic event vocabulary. -/
inductive Event where
  | quit
  | click (b : MouseButton)
  | mouseButtonDown (b : MouseButton)
  | mouseMove
  | mouseButtonUp (b : MouseButton)
  | windowMoved
  | windowUnhandled
  | dragStart (b : MouseButton)
  | drag (b : MouseButton)
  | dragEnd (b : MouseButton)
  | unhandled
deriving DecidableEq, Repr

/-- `events::EventData`: optional payload of a semantic event. -/
inductive EventData where
  | coordinate (x y : Int)
  | fcoordinate (x y : Int)
  | difference (x_rel y_rel x y : Int)
deriving DecidableEq, Repr

/-- `impl From<sdl3::event::Event> for Event` (the fallback conversion
`event.into()` used when no gesture was parsed). -/
def RawEvent.toEvent : RawEvent → Event
  | .quit => .quit
  | .buttonDown b _ _ => .mouseButtonDown b
  | .buttonUp b _ _ => .mouseButtonUp b
  | .motion _ _ _ _ => .mouseMove
  | .windowMoved _ _ => .windowMoved
  | .other => .unhandled

/-- A frame event set is the ordered list of `event_set.insert` calls made
by `pump_events` while processing the frame's raw events. -/
abbrev EventSet := List (Event × Option EventData)

/-- Map lookup over the insertion list: the payload recorded for a key is
the one of the last insertion with that key (`HashMap::insert` overwrites). -/
def getEvent (es : EventSet) (e : Event) : Option (Option EventData) :=
  (es.reverse.find? (fun p => p.1 = e)).map (·.2)

/-- The per-button work of `pump_events`'s `MouseMotion` arm: the Rust code
iterates over a snapshot `[(Left, down.left, dragging.left), …]` taken
before any mutation, emitting DragStart for buttons that are down and not
yet dragging (and marking them dragging) and Drag for buttons already
dragging. -/
def motionButtonStep (snapshot : MouseState) (x y xrel yrel : Int)
    (acc : MouseState × EventSet) (b : MouseButton) : MouseState × EventSet :=
  let (st, out) := acc
  let is_down := snapshot.down.is_active b
  let is_dragging := snapshot.dragging.is_active b
  let (st, out) :=
    if is_down && !is_dragging then
      ({ st with dragging := st.dragging.set_button b true },
       out ++ [(Event.dragStart b, some (EventData.fcoordinate x y))])
    else (st, out)
  if is_down && is_dragging then
    (st, out ++ [(Event.drag b, some (EventData.difference xrel yrel x y))])
  else (st, out)

/-- `events::EventMediator::pump_events`, one raw event: returns the new
gesture state and the insertions this event contributed to the frame's
event set. -/
def pumpStep (st : MouseState) : RawEvent → MouseState × EventSet
  | .buttonDown b _ _ =>
      ({ st with down := st.down.set_button b true },
       [(Event.mouseButtonDown b, none)])
  | .buttonUp b x y =>
      let (parsed, data) :=
        if !st.any_drag then
          (some (Event.click b), some (EventData.fcoordinate x y))
        else if st.dragging.is_active b then
          (some (Event.dragEnd b), some (EventData.fcoordinate x y))
        else (none, none)
      let st := st.reset_key b
      match parsed with
      | some ev => (st, [(ev, data)])
      | none => (st, [(Event.mouseButtonUp b, none)])
  | .motion x y xrel yrel =>
      let (st, out) :=
        [MouseButton.left, MouseButton.middle, MouseButton.right].foldl
          (motionButtonStep st x y xrel yrel) (st, [])
      (st, out ++ [(Event.mouseMove, none)])
  | .windowMoved x y =>
      (st, [(Event.windowMoved, some (EventData.coordinate x y))])
  | .quit => (st, [(Event.quit, none)])
  | .other => (st, [(Event.unhandled, none)])

/-- `pump_events` over a whole frame's raw event list, collecting every
insertion in order. -/
def pumpEvents (st : MouseState) : List RawEvent → MouseState × EventSet
  | [] => (st, [])
  | e :: rest =>
      ((pumpEvents (pumpStep st e).1 rest).1,
       (pumpStep st e).2 ++ (pumpEvents (pumpStep st e).1 rest).2)

example : (pumpStep MouseState.init (.buttonUp .right 0 0)).2
    = [(Event.click .right, some (EventData.fcoordinate 0 0))] := by decide

example :
    (pumpEvents MouseState.init
      [.buttonDown .left 0 0, .motion 1 1 1 1, .motion 2 2 1 1, .buttonUp .left 2 2]).2
    = [(Event.mouseButtonDown .left, none),
       (Event.dragStart .left, some (EventData.fcoordinate 1 1)),
       (Event.mouseMove, none),
       (Event.drag .left, some (EventData.difference 1 1 2 2)),
       (Event.mouseMove, none),
       (Event.dragEnd .left, some (EventData.fcoordinate 2 2))] := by decide

/-! ## Tasks and the per-frame scheduler drain (`src/gremlin.rs`, `src/behavior/render.rs`) -/

/-- `gremlin::GremlinTask`. -/
inductive GremlinTask where
  | play (name : String)
  | playInterrupt (name : String)
  | goto (x y : Int)
deriving DecidableEq, Repr

/-- The `if let GremlinTask::PlayInterrupt(_) = &task` test of the drain loop. -/
def GremlinTask.isInterrupt : GremlinTask → Bool
  | .playInterrupt _ => true
  | _ => false

/-- The channel-drain loop (`while let Ok(task) = task_channel.1.try_recv()`):
given the tasks currently available on the channel and the pending queue,
returns the task board, the new queue, and the tasks left unread on the
channel. The first `PlayInterrupt` becomes the board and stops the drain;
every other task read before it is pushed to the back of the queue. -/
def drainTasks : List GremlinTask → List GremlinTask →
    Option GremlinTask × List GremlinTask × List GremlinTask
  | [], queue => (none, queue, [])
  | task :: rest, queue =>
      if task.isInterrupt then (some task, queue, rest)
      else drainTasks rest (queue ++ [task])

/-- Steps 1–2 of the per-frame scheduler (`go` lines 534–549, `update` lines
850–863, `render.rs` lines 31–46): drain the channel, then, if no interrupt
was found and the ready gate (`should_check_for_action`) is true, pop the
front of the FIFO queue as the board. -/
def schedulerFrame (channel queue : List GremlinTask) (gate : Bool) :
    Option GremlinTask × List GremlinTask × List GremlinTask :=
  match drainTasks channel queue with
  | (some task, queue, rest) => (some task, queue, rest)
  | (none, queue, rest) =>
      if gate then (queue.head?, queue.drop 1, rest) else (none, queue, rest)

/-! ## Animation data model and texture cache (`src/gremlin.rs`, `src/utils.rs`) -/

def DEFAULT_COLUMN_COUNT : Nat := 10

def CACHE_CAPACITY : Nat := 10

/-- `gremlin::AnimationProperties`. The `sprite_path: Option<PathBuf>`
field together with the success of `image::open` on it is abstracted by
`loadable`: `TryInto<Animation>` and `TryFrom<&AnimationProperties> for
Animator` succeed exactly when the path is set and the image decodes. -/
structure AnimationProperties where
  animation_name : String
  sprite_count : Nat
  loadable : Bool
deriving DecidableEq, Repr

/-- `gremlin::Animator`, restricted to the fields the verified logic reads:
the playback cursor and its descriptor. The pixel-dimension fields
(`texture_size`, `sprite_size`) are functions of the decoded image and are
not consulted by any claim. -/
structure Animator where
  current_frame : Nat
  animation_properties : AnimationProperties
  column_count : Nat
deriving DecidableEq, Repr

/-- GPU textures are opaque; each upload is represented by an identity
token drawn from a counter, so that texture reuse vs. fresh creation is
observable. -/
abbrev TextureId := Nat

abbrev TextureCacheItem := Animator × TextureId

/-- `utils::TextureCache` (same shape as the private copy in
`gremlin.rs`): a `VecDeque` whose front (index 0) is the least-recently
used end and whose back is the most-recently used end. -/
structure TextureCache where
  data : List (String × TextureCacheItem)
deriving DecidableEq, Repr

/-- `TextureCache::lookup` / `gremlin::lookup_cache`: enumerate, reverse,
and return the first match — i.e. scan from the most-recent (back) end and
yield the first entry with the requested name, together with its index. -/
def TextureCache.lookup (c : TextureCache) (name : String) :
    Option (Nat × TextureCacheItem) :=
  (c.data.enum.reverse.find? (fun a => a.2.1 == name)).map (fun a => (a.1, a.2.2))

/-- `TextureCache::rearrange`: `VecDeque::remove(i)` (no-op when out of
range) followed by `push_back`, moving the accessed entry to the MRU end. -/
def TextureCache.rearrange (c : TextureCache) (access_index : Nat) : TextureCache :=
  match c.data.get? access_index with
  | some item => ⟨c.data.eraseIdx access_index ++ [item]⟩
  | none => c

/-- `TextureCache::cache`: when the deque already holds `CACHE_CAPACITY`
(10) or more entries, pop the front (LRU) entry, then push the new entry to
the back. -/
def TextureCache.cache (c : TextureCache) (name : String) (item : TextureCacheItem) :
    TextureCache :=
  let d := if CACHE_CAPACITY ≤ c.data.length then c.data.drop 1 else c.data
  ⟨d ++ [(name, item)]⟩

/-! ## Gremlin entity and task resolution (`src/gremlin.rs::go`,
`src/gremlin.rs::update`, `src/behavior/render.rs`) -/

/-- `gremlin::Gremlin`, restricted to the fields the scheduler and playback
logic touch. `animation_map` models the `HashMap` as an association list
with replace-on-insert semantics. -/
structure Gremlin where
  animation_map : List (String × AnimationProperties)
  animator : Option Animator
  texture : Option TextureId
deriving DecidableEq, Repr

/-- `HashMap::get` over the association-list model. -/
def Gremlin.mapGet (g : Gremlin) (name : String) : Option AnimationProperties :=
  (g.animation_map.find? (fun p => p.1 == name)).map (·.2)

/-- Result of resolving one task board entry. -/
structure ResolveResult where
  gremlin : Gremlin
  cache : TextureCache
  next_texture : TextureId
  current_animation_name : String
  gate : Bool
deriving DecidableEq, Repr

/-- The `else if let Some(animation_props) = gremlin.animation_map.get(..)`
chain of the resolution (cache hit → rearrange and clone the MRU entry;
cache miss → decode, upload a fresh texture, insert into the cache; decode
failure → install nothing). In every case in which the name was found in
the map, the ready gate is set false and the current animation name is
updated afterwards. `none` models the `back().unwrap()` panic, unreachable
after a successful lookup. -/
def resolveViaMap (animation_name : String) (g : Gremlin) (cache : TextureCache)
    (next_texture : TextureId) (current_animation_name : String) (gate : Bool) :
    Option ResolveResult :=
  match g.mapGet animation_name with
  | none => some ⟨g, cache, next_texture, current_animation_name, gate⟩
  | some animation_props =>
      match cache.lookup animation_name with
      | some (index, _) =>
          let cache := cache.rearrange index
          match cache.data.getLast? with
          | some (_, (animator, texture)) =>
              some ⟨{ g with animator := some animator, texture := some texture },
                    cache, next_texture, animation_name, false⟩
          | none => none
      | none =>
          if animation_props.loadable then
            let animator : Animator := ⟨0, animation_props, DEFAULT_COLUMN_COUNT⟩
            some ⟨{ g with animator := some animator, texture := some next_texture },
                  cache.cache animation_props.animation_name (animator, next_texture),
                  next_texture + 1, animation_name, false⟩
          else
            some ⟨g, cache, next_texture, animation_name, false⟩

/-- The `GremlinTask::Play(name) | GremlinTask::PlayInterrupt(name)` arm:
when an animator is loaded and the task names the animation already
current, only `current_frame` is reset to 0 (cheap restart); otherwise the
animation map is consulted. -/
def resolvePlay (animation_name : String) (g : Gremlin) (cache : TextureCache)
    (next_texture : TextureId) (current_animation_name : String) (gate : Bool) :
    Option ResolveResult :=
  match g.animator with
  | some animator =>
      if animation_name = current_animation_name then
        some ⟨{ g with animator := some { animator with current_frame := 0 } },
              cache, next_texture, current_animation_name, gate⟩
      else resolveViaMap animation_name g cache next_texture current_animation_name gate
  | none => resolveViaMap animation_name g cache next_texture current_animation_name gate

/-- Resolution of the frame's task board (`go` lines 551–621, `update`
lines 865–928, `render.rs` lines 48–128). `Goto` only records a movement
target, which is outside the animation state. -/
def resolveTask (task : GremlinTask) (g : Gremlin) (cache : TextureCache)
    (next_texture : TextureId) (current_animation_name : String) (gate : Bool) :
    Option ResolveResult :=
  match task with
  | .play animation_name | .playInterrupt animation_name =>
      resolvePlay animation_name g cache next_texture current_animation_name gate
  | .goto _ _ => some ⟨g, cache, next_texture, current_animation_name, gate⟩

/-! ## Per-frame playback advance and the whole frame step -/

/-- The scheduler/playback state threaded through the frame loop of `go`
(the same state lives across `DesktopGremlin` and `GremlinRender` in the
behavior pipeline). `gate` is `should_check_for_action`; `exited` models
loop termination: the `break` of `go` line 637, equivalently
`*should_exit.lock().unwrap() = true` in `render.rs` line 145. -/
structure SchedState where
  channel : List GremlinTask
  queue : List GremlinTask
  gate : Bool
  current_animation_name : String
  gremlin : Option Gremlin
  cache : TextureCache
  next_texture : TextureId
  exited : Bool
deriving DecidableEq, Repr

/-- The draw-and-advance block (`go` lines 624–644, `update` lines 930–950,
`render.rs` lines 131–151): runs only when an entity, a texture and an
animator are all present. The frame addressed by `current_frame` is
presented; if the frame just presented was the last one the ready gate is
set true, and additionally the exit flag when the current animation is
"OUTRO". Then `current_frame = (current_frame + 1) % sprite_count`, which
panics — modelled by `none` — when `sprite_count` is 0. -/
def playbackStep (s : SchedState) : Option SchedState :=
  match s.gremlin with
  | none => some s
  | some g =>
      match g.texture, g.animator with
      | some _, some animator =>
          let count := animator.animation_properties.sprite_count
          let gate := if animator.current_frame + 1 = count then true else s.gate
          let exited :=
            if animator.current_frame + 1 = count ∧ s.current_animation_name = "OUTRO"
            then true else s.exited
          if count = 0 then none
          else
            let animator := { animator with current_frame := (animator.current_frame + 1) % count }
            let g := { g with animator := some animator }
            some { s with gate := gate, exited := exited, gremlin := some g }
      | _, _ => some s

/-- One full frame of the scheduler/playback core: drain and pick the task
board, resolve it when an entity is loaded, then advance playback. `none`
propagates the division-by-zero / unwrap panics. -/
def frameStep (s : SchedState) : Option SchedState :=
  match schedulerFrame s.channel s.queue s.gate with
  | (board, queue, rest) =>
      let s := { s with queue := queue, channel := rest }
      match board, s.gremlin with
      | some task, some g =>
          match resolveTask task g s.cache s.next_texture s.current_animation_name s.gate with
          | some r =>
              let s := { s with gremlin := some r.gremlin, cache := r.cache, next_texture := r.next_texture, current_animation_name := r.current_animation_name, gate := r.gate }
              playbackStep s
          | none => none
      | _, _ => playbackStep s

/-! ## The drag behavior (`src/behavior/drag.rs::GremlinDrag`) -/

/-- The state of `behavior::drag::GremlinDrag` (the `last_moved_at`
timestamp, a wall-clock instant, is outside the model). -/
structure GremlinDragState where
  is_dragging : Bool
  key_state : MouseKeysState
  move_torwards_cursor : Bool
  should_check_drag : Bool
  drag_start_x : Int
  drag_start_y : Int
deriving DecidableEq, Repr

/-- `GremlinDrag::new()`. -/
def GremlinDragState.init : GremlinDragState :=
  ⟨false, MouseKeysState.init, false, false, 0, 0⟩

/-- `GremlinDrag::update`: reads the frame's semantic event set and the
application's task queue, and returns the new behavior state, the tasks it
sends on the task channel (in order), and the resulting task queue. The
window repositioning performed while `is_dragging && should_check_drag` is
an external SDL effect. Note the `MouseMove` arm fires only when the
`MouseMove` entry of the event set carries a `Coordinate` payload
(`if let Some(EventData::Coordinate { x, y }) = context.events.get(&Event::MouseMove)`). -/
def gremlinDragUpdate (st : GremlinDragState) (events : EventSet)
    (queue : List GremlinTask) :
    GremlinDragState × List GremlinTask × List GremlinTask :=
  let st :=
    if (getEvent events (Event.mouseButtonDown .left)).isSome then
      { st with key_state := st.key_state.set_button .left true }
    else st
  let (st, sent) :=
    if (getEvent events (Event.mouseButtonUp .left)).isSome then
      let clickBranch := !st.is_dragging && st.key_state.left
      let patBranch := st.is_dragging && st.key_state.left
      let sent :=
        (if clickBranch then [GremlinTask.playInterrupt "CLICK"] else [])
          ++ (if patBranch then [GremlinTask.playInterrupt "PAT"] else [])
          ++ [GremlinTask.play "IDLE"]
      let st := { st with
        is_dragging := false,
        key_state := st.key_state.set_button .left false,
        move_torwards_cursor := if clickBranch then !st.move_torwards_cursor else st.move_torwards_cursor }
      (st, sent)
    else (st, [])
  match getEvent events Event.mouseMove with
  | some (some (EventData.coordinate x y)) =>
      let (st, sent, queue) :=
        if st.key_state.left && !st.is_dragging then
          ({ st with is_dragging := true, drag_start_x := x, drag_start_y := y },
           sent ++ [GremlinTask.playInterrupt "GRAB"], [])
        else (st, sent, queue)
      ({ st with should_check_drag := !st.should_check_drag }, sent, queue)
  | _ => (st, sent, queue)

/-! ## The entity-definition parser (`src/gremlin.rs::load_gremlin`) -/

/-- The pure, line-level part of `load_gremlin` works on this record (the
file-system walk that fills `sprite_path` in is external). -/
structure GremlinCfg where
  name : String
  metadata : List (String × String)
  animation_map : List (String × AnimationProperties)
deriving DecidableEq, Repr

/-- `HashMap::insert`: replace the binding if the key exists, else append. -/
def mapInsert {α : Type} (m : List (String × α)) (k : String) (v : α) :
    List (String × α) :=
  if m.any (fun p => p.1 == k) then
    m.map (fun p => if p.1 == k then (k, v) else p)
  else m ++ [(k, v)]

/-- `str::split('=').collect::<Vec<_>>()` at the character level: split on
every `'='`, keeping empty pieces. -/
def splitEq : List Char → List (List Char)
  | [] => [[]]
  | c :: rest =>
      let r := splitEq rest
      if c = '=' then [] :: r
      else
        match r with
        | [] => [[c]]
        | piece :: more => (c :: piece) :: more

/-- `line.starts_with("//")`. -/
def isCommentLine : List Char → Bool
  | '/' :: '/' :: _ => true
  | _ => false

def digitVal (c : Char) : Option Nat :=
  if '0' ≤ c ∧ c ≤ '9' then some (c.toNat - '0'.toNat) else none

def parseDigitsAux (acc : Nat) : List Char → Option Nat
  | [] => some acc
  | c :: rest =>
      match digitVal c with
      | some d => parseDigitsAux (acc * 10 + d) rest
      | none => none

/-- `str::parse::<u32>()`: an optional leading `+`, then a nonempty digit
string whose value fits in a `u32`. -/
def parseU32Chars (s : List Char) : Option Nat :=
  let digits := match s with
    | '+' :: rest => rest
    | _ => s
  match digits with
  | [] => none
  | _ =>
      match parseDigitsAux 0 digits with
      | some n => if n < 2 ^ 32 then some n else none
      | none => none

/-- One line of `load_gremlin`: `//` lines are comments; a line with
exactly one `=` is either metadata (`.`-prefixed key, with `.name` going to
the entity name) or, when the value parses as a `u32`, an animation
registration (`AnimationProperties::new` leaves `sprite_path` unset).
Everything else is skipped. -/
def parseGremlinLine (g : GremlinCfg) (line : String) : GremlinCfg :=
  if isCommentLine line.data then g
  else
    match splitEq line.data with
    | [k, v] =>
        if k.head? = some '.' then
          if k = ".name".data then { g with name := ⟨v⟩ }
          else { g with metadata := mapInsert g.metadata ⟨k⟩ ⟨v⟩ }
        else
          match parseU32Chars v with
          | some count =>
              { g with animation_map := mapInsert g.animation_map ⟨k⟩ ⟨⟨k⟩, count, false⟩ }
          | none => g
    | _ => g

/-- The parsing loop of `load_gremlin` over the file's lines. -/
def parseGremlinConfig (lines : List String) : GremlinCfg :=
  lines.foldl parseGremlinLine ⟨"", [], []⟩

example :
    (parseGremlinConfig ["// c", ".name=Mambo", "IDLE=4", "SPIN=0"]).animation_map
      = [("IDLE", ⟨"IDLE", 4, false⟩), ("SPIN", ⟨"SPIN", 0, false⟩)] := by decide

/-! ## Scheduler drain theorems (C1, C7) -/

lemma drainTasks_first_interrupt (pre : List GremlinTask) (queue : List GremlinTask)
    (t : GremlinTask) (ht : t.isInterrupt = true) (post : List GremlinTask)
    (hpre : ∀ u ∈ pre, u.isInterrupt = false) :
    drainTasks (pre ++ t :: post) queue = (some t, queue ++ pre, post) := by
  induction pre generalizing queue with
  | nil => simp [drainTasks, ht]
  | cons u rest ih =>
      have hu : u.isInterrupt = false := hpre u (by simp)
      have hrest : ∀ v ∈ rest, v.isInterrupt = false := fun v hv => hpre v (by simp [hv])
      simp [drainTasks, hu, ih (queue ++ [u]) hrest]

/-- C7: in each per-frame channel drain, the first `PlayInterrupt`
encountered becomes the frame's active task immediately and draining
stops, leaving the tasks after it unread on the channel for future frames;
every non-interrupting task read before that point is appended to the FIFO
queue in order; and the frame's board holds at most one task (the result
type is a single `Option GremlinTask`), so at most one task is resolved
per frame no matter how many arrived. -/
theorem C7_theorem (pre post queue : List GremlinTask) (a : String) (gate : Bool)
    (hpre : ∀ u ∈ pre, u.isInterrupt = false) :
    schedulerFrame (pre ++ GremlinTask.playInterrupt a :: post) queue gate
      = (some (GremlinTask.playInterrupt a), queue ++ pre, post) := by
  unfold schedulerFrame
  rw [drainTasks_first_interrupt pre queue (GremlinTask.playInterrupt a) rfl post hpre]

/-- Witness for C7 at a concrete drain: two plain `Play` tasks before the
interrupt, one task after it, one task already queued, gate false. -/
theorem C7_witness :
    (∀ u ∈ [GremlinTask.play "P1", GremlinTask.play "P2"], u.isInterrupt = false)
    ∧ schedulerFrame
        ([GremlinTask.play "P1", GremlinTask.play "P2"]
          ++ GremlinTask.playInterrupt "I" :: [GremlinTask.play "P3"])
        [GremlinTask.play "Q"] false
      = (some (GremlinTask.playInterrupt "I"),
         [GremlinTask.play "Q", GremlinTask.play "P1", GremlinTask.play "P2"],
         [GremlinTask.play "P3"]) :=
  ⟨by decide, C7_theorem _ _ _ _ _ (by decide)⟩

/-- C1 counterexample: with one plain task queued, consuming a
`PlayInterrupt` leaves the queue holding that task (nothing is discarded),
and the next non-interrupting drain with the gate true pops it — the
discarded-and-never-resurrected behaviour the claim asserts does not hold:
the scheduler itself never flushes the queue. -/
theorem C1_counterexample :
    schedulerFrame [GremlinTask.playInterrupt "B"] [GremlinTask.play "A"] true
      = (some (GremlinTask.playInterrupt "B"), [GremlinTask.play "A"], [])
    ∧ schedulerFrame [] [GremlinTask.play "A"] true
      = (some (GremlinTask.play "A"), [], []) := by decide

/-- C1 amended: when the scheduler consumes a `PlayInterrupt`, the N
queued plain tasks are left intact — the scheduler itself does not flush
the queue (only behaviors clear it, via `task_queue.clear()`) — and a
later non-interrupting drain with the ready gate true pops the first of
them as the active task. -/
theorem C1_amended (a : String) (t : GremlinTask) (ts : List GremlinTask) (gate : Bool) :
    schedulerFrame [GremlinTask.playInterrupt a] (t :: ts) gate
      = (some (GremlinTask.playInterrupt a), t :: ts, [])
    ∧ schedulerFrame [] (t :: ts) true = (some t, ts, []) := by
  constructor
  · simp [schedulerFrame, drainTasks, GremlinTask.isInterrupt]
  · simp [schedulerFrame, drainTasks]

/-! ## Resolution and playback theorems (C3, C4, C8, C10) -/

lemma TextureCache.lookup_ne_nil {c : TextureCache} {name : String}
    {p : Nat × TextureCacheItem} (h : c.lookup name = some p) : c.data ≠ [] := by
  intro hd
  simp [TextureCache.lookup, hd] at h

lemma TextureCache.rearrange_ne_nil {c : TextureCache} (h : c.data ≠ []) (i : Nat) :
    (c.rearrange i).data ≠ [] := by
  unfold TextureCache.rearrange
  cases hg : c.data.get? i with
  | none => simpa using h
  | some item => simp

/-- Whatever branch `resolveViaMap` takes, the gate comes out false exactly
when the animation map contains the requested name, and is untouched
otherwise. -/
lemma resolveViaMap_gate (name : String) (g : Gremlin) (cache : TextureCache)
    (next : TextureId) (current : String) (gate : Bool) :
    (resolveViaMap name g cache next current gate).map ResolveResult.gate
      = some (if (g.mapGet name).isSome then false else gate) := by
  unfold resolveViaMap
  cases hm : g.mapGet name with
  | none => simp
  | some props =>
      cases hl : cache.lookup name with
      | none => cases hld : props.loadable <;> simp [hld]
      | some p =>
          obtain ⟨i, item⟩ := p
          have hne : (cache.rearrange i).data ≠ [] :=
            TextureCache.rearrange_ne_nil (TextureCache.lookup_ne_nil hl) i
          have hx := List.getLast?_eq_getLast_of_ne_nil hne
          rcases hval : (cache.rearrange i).data.getLast hne with ⟨nm, an, tx⟩
          rw [hval] at hx
          simp [hx]

/-- C3 counterexample: with an entity loaded whose active animator plays
animation "A" and the ready gate true, resolving `PlayInterrupt("A")` (the
same-animation restart branch) leaves the gate true — resolution does not
always set the ready gate to false. -/
theorem C3_counterexample :
    (resolveTask (GremlinTask.playInterrupt "A")
        ⟨[("A", ⟨"A", 2, true⟩)], some ⟨0, ⟨"A", 2, true⟩, 10⟩, some 0⟩
        ⟨[]⟩ 1 "A" true).map ResolveResult.gate = some true := by decide

/-- C3 amended: resolving a Play/PlayInterrupt task sets the ready gate to
false exactly when the task's name is found in the animation map and the
same-animation restart branch (animator loaded and name equal to the
current animation) is not taken; the restart branch and an unknown name
leave the gate unchanged. The gate is set true by the playback step
exactly when the frame just presented was the animation's last (natural
completion); no other step of the frame sets it true. -/
theorem C3_amended (name current : String) (g : Gremlin) (cache : TextureCache)
    (next : TextureId) (gate : Bool) (t : GremlinTask)
    (ht : t = GremlinTask.play name ∨ t = GremlinTask.playInterrupt name)
    (s : SchedState) (g2 : Gremlin) (a : Animator) (tex : TextureId)
    (hg : s.gremlin = some g2) (htex : g2.texture = some tex) (ha : g2.animator = some a)
    (hc : a.animation_properties.sprite_count ≠ 0) :
    (resolveTask t g cache next current gate).map ResolveResult.gate
      = some (if g.animator.isSome ∧ name = current then gate
              else if (g.mapGet name).isSome then false else gate)
    ∧ (playbackStep s).map SchedState.gate
      = some (if a.current_frame + 1 = a.animation_properties.sprite_count then true
              else s.gate) := by
  constructor
  · have hmain : (resolvePlay name g cache next current gate).map ResolveResult.gate
        = some (if g.animator.isSome ∧ name = current then gate
                else if (g.mapGet name).isSome then false else gate) := by
      unfold resolvePlay
      cases hA : g.animator with
      | none => simp [resolveViaMap_gate]
      | some animator =>
          by_cases hnc : name = current
          · simp [hnc]
          · simp [hnc, resolveViaMap_gate]
    rcases ht with rfl | rfl <;> exact hmain
  · simp [playbackStep, hg, htex, ha, hc]

/-- Witness for C3 amended: resolving `Play("B")` while "A" is current and
no animator is loaded (map branch, gate true turns false), and a playback
step in mid-animation (frame 1 of 3, gate stays put). -/
theorem C3_witness :
    ((GremlinTask.play "B" = GremlinTask.play "B"
        ∨ GremlinTask.play "B" = GremlinTask.playInterrupt "B")
      ∧ (⟨[], [], false, "X", some ⟨[], some ⟨1, ⟨"X", 3, true⟩, 10⟩, some 7⟩, ⟨[]⟩, 0, false⟩
          : SchedState).gremlin
          = some ⟨[], some ⟨1, ⟨"X", 3, true⟩, 10⟩, some 7⟩
      ∧ (⟨[], some ⟨1, ⟨"X", 3, true⟩, 10⟩, some 7⟩ : Gremlin).texture = some 7
      ∧ (⟨[], some ⟨1, ⟨"X", 3, true⟩, 10⟩, some 7⟩ : Gremlin).animator
          = some ⟨1, ⟨"X", 3, true⟩, 10⟩
      ∧ (⟨1, ⟨"X", 3, true⟩, 10⟩ : Animator).animation_properties.sprite_count ≠ 0)
    ∧ ((resolveTask (GremlinTask.play "B") ⟨[("B", ⟨"B", 3, true⟩)], none, none⟩ ⟨[]⟩ 0 "A"
          true).map ResolveResult.gate
        = some (if (⟨[("B", ⟨"B", 3, true⟩)], none, none⟩ : Gremlin).animator.isSome
                    ∧ "B" = "A" then true
                else if ((⟨[("B", ⟨"B", 3, true⟩)], none, none⟩ : Gremlin).mapGet "B").isSome
                then false else true)
        ∧ (playbackStep
            ⟨[], [], false, "X", some ⟨[], some ⟨1, ⟨"X", 3, true⟩, 10⟩, some 7⟩, ⟨[]⟩, 0, false⟩).map
              SchedState.gate
          = some (if (⟨1, ⟨"X", 3, true⟩, 10⟩ : Animator).current_frame + 1
                      = (⟨1, ⟨"X", 3, true⟩, 10⟩ : Animator).animation_properties.sprite_count
                  then true else false)) :=
  ⟨⟨Or.inl rfl, rfl, rfl, rfl, by decide⟩,
   C3_amended "B" "A" ⟨[("B", ⟨"B", 3, true⟩)], none, none⟩ ⟨[]⟩ 0 true
     (GremlinTask.play "B") (Or.inl rfl)
     ⟨[], [], false, "X", some ⟨[], some ⟨1, ⟨"X", 3, true⟩, 10⟩, some 7⟩, ⟨[]⟩, 0, false⟩
     ⟨[], some ⟨1, ⟨"X", 3, true⟩, 10⟩, some 7⟩ ⟨1, ⟨"X", 3, true⟩, 10⟩ 7
     rfl rfl rfl (by decide)⟩

/-- C4: whenever the playback step runs with the active animation name
"OUTRO" and the frame being presented is the animation's last
(`current_frame + 1 = sprite_count`), the application exit flag comes out
true (`break` of the `go` loop, `*should_exit = true` in `render.rs`). -/
theorem C4_theorem (s : SchedState) (g : Gremlin) (a : Animator) (tex : TextureId)
    (hg : s.gremlin = some g) (htex : g.texture = some tex) (ha : g.animator = some a)
    (hfinal : a.current_frame + 1 = a.animation_properties.sprite_count)
    (houtro : s.current_animation_name = "OUTRO") :
    (playbackStep s).map SchedState.exited = some true := by
  have hc : a.animation_properties.sprite_count ≠ 0 := by omega
  simp [playbackStep, hg, htex, ha, hc, hfinal, houtro]

/-- Witness for C4: OUTRO with 4 frames, presenting frame 3 (the last). -/
theorem C4_witness :
    ((⟨[], [], false, "OUTRO", some ⟨[], some ⟨3, ⟨"OUTRO", 4, true⟩, 10⟩, some 0⟩, ⟨[]⟩, 1,
        false⟩ : SchedState).gremlin
        = some ⟨[], some ⟨3, ⟨"OUTRO", 4, true⟩, 10⟩, some 0⟩
      ∧ (⟨[], some ⟨3, ⟨"OUTRO", 4, true⟩, 10⟩, some 0⟩ : Gremlin).texture = some 0
      ∧ (⟨[], some ⟨3, ⟨"OUTRO", 4, true⟩, 10⟩, some 0⟩ : Gremlin).animator
          = some ⟨3, ⟨"OUTRO", 4, true⟩, 10⟩
      ∧ (⟨3, ⟨"OUTRO", 4, true⟩, 10⟩ : Animator).current_frame + 1
          = (⟨3, ⟨"OUTRO", 4, true⟩, 10⟩ : Animator).animation_properties.sprite_count
      ∧ (⟨[], [], false, "OUTRO", some ⟨[], some ⟨3, ⟨"OUTRO", 4, true⟩, 10⟩, some 0⟩, ⟨[]⟩, 1,
          false⟩ : SchedState).current_animation_name = "OUTRO")
    ∧ (playbackStep
        ⟨[], [], false, "OUTRO", some ⟨[], some ⟨3, ⟨"OUTRO", 4, true⟩, 10⟩, some 0⟩, ⟨[]⟩, 1,
          false⟩).map SchedState.exited = some true :=
  ⟨⟨rfl, rfl, rfl, by decide, rfl⟩,
   C4_theorem
     ⟨[], [], false, "OUTRO", some ⟨[], some ⟨3, ⟨"OUTRO", 4, true⟩, 10⟩, some 0⟩, ⟨[]⟩, 1,
       false⟩
     ⟨[], some ⟨3, ⟨"OUTRO", 4, true⟩, 10⟩, some 0⟩ ⟨3, ⟨"OUTRO", 4, true⟩, 10⟩ 0
     rfl rfl rfl (by decide) rfl⟩

/-- C8: resolving a task that names the animation already active (an
animator is loaded and the task's name equals the current animation name)
resets `current_frame` to 0 and changes nothing else: the gremlin's
texture is kept, the cache is neither consulted nor rearranged, the
texture counter does not move (no new texture), and the current name and
ready gate are untouched. -/
theorem C8_theorem (name : String) (g : Gremlin) (a : Animator) (cache : TextureCache)
    (next : TextureId) (gate : Bool) (t : GremlinTask)
    (ht : t = GremlinTask.play name ∨ t = GremlinTask.playInterrupt name)
    (ha : g.animator = some a) :
    resolveTask t g cache next name gate
      = some ⟨{ g with animator := some { a with current_frame := 0 } },
              cache, next, name, gate⟩ := by
  rcases ht with rfl | rfl <;> simp [resolveTask, resolvePlay, ha]

/-- Witness for C8: restarting the already-active "IDLE" (frame 2 of 4)
leaves cache, texture counter, name and gate as they were. -/
theorem C8_witness :
    ((GremlinTask.playInterrupt "IDLE" = GremlinTask.play "IDLE"
        ∨ GremlinTask.playInterrupt "IDLE" = GremlinTask.playInterrupt "IDLE")
      ∧ (⟨[("IDLE", ⟨"IDLE", 4, true⟩)], some ⟨2, ⟨"IDLE", 4, true⟩, 10⟩, some 5⟩
          : Gremlin).animator = some ⟨2, ⟨"IDLE", 4, true⟩, 10⟩)
    ∧ resolveTask (GremlinTask.playInterrupt "IDLE")
        ⟨[("IDLE", ⟨"IDLE", 4, true⟩)], some ⟨2, ⟨"IDLE", 4, true⟩, 10⟩, some 5⟩
        ⟨[("IDLE", (⟨0, ⟨"IDLE", 4, true⟩, 10⟩, 5))]⟩ 6 "IDLE" true
      = some ⟨⟨[("IDLE", ⟨"IDLE", 4, true⟩)], some ⟨0, ⟨"IDLE", 4, true⟩, 10⟩, some 5⟩,
              ⟨[("IDLE", (⟨0, ⟨"IDLE", 4, true⟩, 10⟩, 5))]⟩, 6, "IDLE", true⟩ :=
  ⟨⟨Or.inr rfl, rfl⟩,
   C8_theorem "IDLE"
     ⟨[("IDLE", ⟨"IDLE", 4, true⟩)], some ⟨2, ⟨"IDLE", 4, true⟩, 10⟩, some 5⟩
     ⟨2, ⟨"IDLE", 4, true⟩, 10⟩
     ⟨[("IDLE", (⟨0, ⟨"IDLE", 4, true⟩, 10⟩, 5))]⟩ 6 true
     (GremlinTask.playInterrupt "IDLE") (Or.inr rfl) rfl⟩

/-- C10: the entity-definition parser accepts a frame count of 0 ("0"
parses as a valid u32, and `NAME=0` registers an animation with
`sprite_count = 0`), and the per-frame advance
`(current_frame + 1) % sprite_count` panics on such an animation — the
playback step is total exactly under the precondition `sprite_count > 0`. -/
theorem C10_theorem (s : SchedState) (g : Gremlin) (a : Animator) (tex : TextureId)
    (hg : s.gremlin = some g) (htex : g.texture = some tex) (ha : g.animator = some a)
    (hzero : a.animation_properties.sprite_count = 0)
    (s2 : SchedState) (g2 : Gremlin) (a2 : Animator) (tex2 : TextureId)
    (hg2 : s2.gremlin = some g2) (htex2 : g2.texture = some tex2)
    (ha2 : g2.animator = some a2)
    (hpos : 0 < a2.animation_properties.sprite_count) :
    parseU32Chars "0".data = some 0
    ∧ (parseGremlinConfig ["SPIN=0"]).animation_map = [("SPIN", ⟨"SPIN", 0, false⟩)]
    ∧ playbackStep s = none
    ∧ (playbackStep s2).isSome = true := by
  refine ⟨by decide, by decide, ?_, ?_⟩
  · simp [playbackStep, hg, htex, ha, hzero]
  · have hc : a2.animation_properties.sprite_count ≠ 0 := by omega
    simp [playbackStep, hg2, htex2, ha2, hc]

/-- Witness for C10: a loaded animation with `sprite_count = 0` makes the
advance panic; one with `sprite_count = 2` advances normally. -/
theorem C10_witness :
    ((⟨[], [], false, "Z", some ⟨[], some ⟨0, ⟨"Z", 0, true⟩, 10⟩, some 0⟩, ⟨[]⟩, 1, false⟩
        : SchedState).gremlin = some ⟨[], some ⟨0, ⟨"Z", 0, true⟩, 10⟩, some 0⟩
      ∧ (⟨[], some ⟨0, ⟨"Z", 0, true⟩, 10⟩, some 0⟩ : Gremlin).texture = some 0
      ∧ (⟨[], some ⟨0, ⟨"Z", 0, true⟩, 10⟩, some 0⟩ : Gremlin).animator
          = some ⟨0, ⟨"Z", 0, true⟩, 10⟩
      ∧ (⟨0, ⟨"Z", 0, true⟩, 10⟩ : Animator).animation_properties.sprite_count = 0
      ∧ (⟨[], [], false, "W", some ⟨[], some ⟨0, ⟨"W", 2, true⟩, 10⟩, some 0⟩, ⟨[]⟩, 1, false⟩
          : SchedState).gremlin = some ⟨[], some ⟨0, ⟨"W", 2, true⟩, 10⟩, some 0⟩
      ∧ (⟨[], some ⟨0, ⟨"W", 2, true⟩, 10⟩, some 0⟩ : Gremlin).texture = some 0
      ∧ (⟨[], some ⟨0, ⟨"W", 2, true⟩, 10⟩, some 0⟩ : Gremlin).animator
          = some ⟨0, ⟨"W", 2, true⟩, 10⟩
      ∧ 0 < (⟨0, ⟨"W", 2, true⟩, 10⟩ : Animator).animation_properties.sprite_count)
    ∧ (parseU32Chars "0".data = some 0
      ∧ (parseGremlinConfig ["SPIN=0"]).animation_map = [("SPIN", ⟨"SPIN", 0, false⟩)]
      ∧ playbackStep
          ⟨[], [], false, "Z", some ⟨[], some ⟨0, ⟨"Z", 0, true⟩, 10⟩, some 0⟩, ⟨[]⟩, 1, false⟩
          = none
      ∧ (playbackStep
          ⟨[], [], false, "W", some ⟨[], some ⟨0, ⟨"W", 2, true⟩, 10⟩, some 0⟩, ⟨[]⟩, 1,
            false⟩).isSome = true) :=
  ⟨⟨rfl, rfl, rfl, rfl, rfl, rfl, rfl, by decide⟩,
   C10_theorem
     ⟨[], [], false, "Z", some ⟨[], some ⟨0, ⟨"Z", 0, true⟩, 10⟩, some 0⟩, ⟨[]⟩, 1, false⟩
     ⟨[], some ⟨0, ⟨"Z", 0, true⟩, 10⟩, some 0⟩ ⟨0, ⟨"Z", 0, true⟩, 10⟩ 0 rfl rfl rfl rfl
     ⟨[], [], false, "W", some ⟨[], some ⟨0, ⟨"W", 2, true⟩, 10⟩, some 0⟩, ⟨[]⟩, 1, false⟩
     ⟨[], some ⟨0, ⟨"W", 2, true⟩, 10⟩, some 0⟩ ⟨0, ⟨"W", 2, true⟩, 10⟩ 0 rfl rfl rfl
     (by decide)⟩

/-! ## Texture cache theorems (C9) -/

lemma cacheLookup_concat (d : List (String × TextureCacheItem))
    (x : String × TextureCacheItem) (name : String) :
    TextureCache.lookup ⟨d ++ [x]⟩ name
      = if x.1 = name then some (d.length, x.2) else TextureCache.lookup ⟨d⟩ name := by
  unfold TextureCache.lookup
  have he : (d ++ [x]).enum = d.enum ++ [(d.length, x)] := by simp [List.enum_append]
  rw [he, List.reverse_append]
  by_cases hx : x.1 = name
  · simp [hx, List.find?]
  · have hb : (x.1 == name) = false := beq_eq_false_iff_ne.mpr hx
    simp [List.find?, hb, hx]

/-- `TextureCache::lookup` finds the match closest to the MRU (back) end:
the returned index holds the requested name and every entry strictly
closer to the back holds some other name; when it returns nothing, no
entry holds the name. -/
lemma cacheLookup_spec (c : TextureCache) (name : String) :
    (∀ p, c.lookup name = some p →
        c.data.get? p.1 = some (name, p.2)
          ∧ ∀ j q, p.1 < j → c.data.get? j = some q → q.1 ≠ name)
    ∧ (c.lookup name = none → ∀ e ∈ c.data, e.1 ≠ name) := by
  obtain ⟨d⟩ := c
  induction d using List.reverseRecOn with
  | nil =>
      refine ⟨fun p hp => ?_, fun _ e he => ?_⟩
      · simp [TextureCache.lookup] at hp
      · simp at he
  | append_singleton d x ih =>
      rw [show (TextureCache.mk (d ++ [x])).data = d ++ [x] from rfl]
      by_cases hx : x.1 = name
      · refine ⟨fun p hp => ?_, fun hn => ?_⟩
        · rw [cacheLookup_concat, if_pos hx] at hp
          obtain rfl : (d.length, x.2) = p := Option.some.inj hp
          refine ⟨?_, fun j q hj hq => ?_⟩
          · have hcat := List.get?_concat_length d x
            rw [show ((d.length, x.2) : Nat × TextureCacheItem).1 = d.length from rfl, hcat]
            rw [← hx]
          · exfalso
            have hlen : (d ++ [x]).length ≤ j := by
              simp only [List.length_append, List.length_cons, List.length_nil]
              omega
            rw [List.get?_eq_none.mpr hlen] at hq
            exact Option.noConfusion hq
        · rw [cacheLookup_concat, if_pos hx] at hn
          exact Option.noConfusion hn
      · refine ⟨fun p hp => ?_, fun hn e he => ?_⟩
        · rw [cacheLookup_concat, if_neg hx] at hp
          obtain ⟨h1, h2⟩ := ih.1 p hp
          have hplt : p.1 < d.length := (List.get?_eq_some.mp h1).1
          refine ⟨?_, fun j q hj hq => ?_⟩
          · rw [List.get?_append hplt]
            exact h1
          · rcases Nat.lt_trichotomy j d.length with hlt | heq | hgt
            · exact h2 j q hj (by rw [List.get?_append hlt] at hq; exact hq)
            · subst heq
              have hcat := List.get?_concat_length d x
              rw [hcat] at hq
              obtain rfl : x = q := Option.some.inj hq
              exact fun h => hx h
            · have hlen : (d ++ [x]).length ≤ j := by
                simp only [List.length_append]
                simpa using hgt
              rw [List.get?_eq_none.mpr hlen] at hq
              exact Option.noConfusion hq
        · rw [cacheLookup_concat, if_neg hx] at hn
          rcases List.mem_append.mp he with hd | hxx
          · exact ih.2 hn e hd
          · obtain rfl : e = x := by simpa using hxx
            exact fun h => hx h

/-- C9: inserting into the cache at capacity (10 or more entries) evicts
exactly the front (least-recently-used) entry and appends the new entry at
the back; `rearrange` moves the accessed entry to the most-recently-used
(back) end; and `lookup` scans from the most-recent end to the
least-recent end, returning the first match (the occurrence closest to the
back), so that an entry promoted by lookup-then-rearrange is never the one
evicted. -/
theorem C9_theorem (c : TextureCache) (name : String) (item : TextureCacheItem)
    (hfull : CACHE_CAPACITY ≤ c.data.length) (i : Nat) (hi : i < c.data.length)
    (n2 : String) :
    (c.cache name item).data = c.data.tail ++ [(name, item)]
    ∧ (c.rearrange i).data = c.data.eraseIdx i ++ (c.data.get? i).toList
    ∧ (∀ p, c.lookup n2 = some p →
          c.data.get? p.1 = some (n2, p.2)
            ∧ ∀ j q, p.1 < j → c.data.get? j = some q → q.1 ≠ n2)
    ∧ (c.lookup n2 = none → ∀ e ∈ c.data, e.1 ≠ n2) := by
  refine ⟨?_, ?_, (cacheLookup_spec c n2).1, (cacheLookup_spec c n2).2⟩
  · simp [TextureCache.cache, hfull, List.drop_one]
  · unfold TextureCache.rearrange
    rw [List.get?_eq_get hi]
    simp

def exCacheC9 : TextureCache :=
  ⟨[("A0", (⟨0, ⟨"A0", 1, true⟩, 10⟩, 0)), ("A1", (⟨0, ⟨"A1", 1, true⟩, 10⟩, 1)),
    ("A2", (⟨0, ⟨"A2", 1, true⟩, 10⟩, 2)), ("A3", (⟨0, ⟨"A3", 1, true⟩, 10⟩, 3)),
    ("A4", (⟨0, ⟨"A4", 1, true⟩, 10⟩, 4)), ("A5", (⟨0, ⟨"A5", 1, true⟩, 10⟩, 5)),
    ("A6", (⟨0, ⟨"A6", 1, true⟩, 10⟩, 6)), ("A7", (⟨0, ⟨"A7", 1, true⟩, 10⟩, 7)),
    ("A8", (⟨0, ⟨"A8", 1, true⟩, 10⟩, 8)), ("A9", (⟨0, ⟨"A9", 1, true⟩, 10⟩, 9))]⟩

def exItemC9 : TextureCacheItem := (⟨0, ⟨"NEW", 1, true⟩, 10⟩, 99)

/-- Witness for C9: a full 10-entry cache; inserting evicts "A0",
rearranging index 3 moves "A3" to the back, and lookup of "A7" returns
index 7 whose entry indeed carries "A7" while the entry above it (index 9,
"A9") does not. -/
theorem C9_witness :
    (CACHE_CAPACITY ≤ exCacheC9.data.length ∧ 3 < exCacheC9.data.length
      ∧ exCacheC9.lookup "A7" = some (7, (⟨0, ⟨"A7", 1, true⟩, 10⟩, 7))
      ∧ exCacheC9.data.get? 9 = some ("A9", (⟨0, ⟨"A9", 1, true⟩, 10⟩, 9)))
    ∧ ((exCacheC9.cache "NEW" exItemC9).data
        = exCacheC9.data.tail ++ [("NEW", exItemC9)]
      ∧ (exCacheC9.rearrange 3).data
        = exCacheC9.data.eraseIdx 3 ++ (exCacheC9.data.get? 3).toList
      ∧ exCacheC9.data.get? 7 = some ("A7", (⟨0, ⟨"A7", 1, true⟩, 10⟩, 7))
      ∧ ("A9", ((⟨0, ⟨"A9", 1, true⟩, 10⟩ : Animator), (9 : TextureId))).1 ≠ "A7") := by
  have h := C9_theorem exCacheC9 "NEW" exItemC9 (by decide) 3 (by decide) "A7"
  have hfound := h.2.2.1 (7, (⟨0, ⟨"A7", 1, true⟩, 10⟩, 7)) (by decide)
  exact ⟨⟨by decide, by decide, by decide, by decide⟩,
    ⟨h.1, h.2.1, hfound.1,
     hfound.2 9 ("A9", (⟨0, ⟨"A9", 1, true⟩, 10⟩, 9)) (by decide) (by decide)⟩⟩

/-! ## Event mediator theorems (C5, C6) -/

/-- C5 counterexample: from the initial mediator state — the right button
was never marked down — a raw right-button-up still emits a `Click` for
that button, because the `MouseButtonUp` arm of `pump_events` checks
`!self.mouse.any_drag()` and never consults the button's own `down` flag.
The claim that neither Click nor DragEnd is emitted is therefore false. -/
theorem C5_counterexample :
    MouseState.init.down.is_active .right = false
    ∧ MouseState.init.dragging.is_active .right = false
    ∧ (pumpStep MouseState.init (RawEvent.buttonUp .right 0 0)).2
        = [(Event.click .right, some (EventData.fcoordinate 0 0))] := by decide

/-- C5 amended: a button-up for a button that is not dragging (in
particular one that was never marked down) emits a `Click` when no button
at all is dragging, and no gesture event (only the plain `MouseButtonUp`)
when some other button is dragging; it never emits `DragEnd`; the gesture
state is reset for that button either way, and the reset is idempotent. -/
theorem C5_amended (s : MouseState) (b : MouseButton) (x y : Int)
    (hd : s.dragging.is_active b = false) :
    (pumpStep s (RawEvent.buttonUp b x y)).2
      = (if s.any_drag then [(Event.mouseButtonUp b, none)]
         else [(Event.click b, some (EventData.fcoordinate x y))])
    ∧ (pumpStep s (RawEvent.buttonUp b x y)).1 = s.reset_key b
    ∧ (s.reset_key b).reset_key b = s.reset_key b := by
  refine ⟨?_, ?_, ?_⟩
  · cases had : s.any_drag <;> simp [pumpStep, had, hd]
  · cases had : s.any_drag <;> simp [pumpStep, had, hd]
  · cases b <;> rfl

/-- Witness for C5 amended: left button mid-drag, a right-button-up (right
never down) produces only the plain `MouseButtonUp`. -/
theorem C5_witness :
    ((⟨⟨true, false, false⟩, ⟨true, false, false⟩⟩ : MouseState).dragging.is_active .right
        = false)
    ∧ ((pumpStep ⟨⟨true, false, false⟩, ⟨true, false, false⟩⟩ (RawEvent.buttonUp .right 2 3)).2
        = (if (⟨⟨true, false, false⟩, ⟨true, false, false⟩⟩ : MouseState).any_drag
           then [(Event.mouseButtonUp .right, none)]
           else [(Event.click .right, some (EventData.fcoordinate 2 3))])
      ∧ (pumpStep ⟨⟨true, false, false⟩, ⟨true, false, false⟩⟩ (RawEvent.buttonUp .right 2 3)).1
          = (⟨⟨true, false, false⟩, ⟨true, false, false⟩⟩ : MouseState).reset_key .right
      ∧ ((⟨⟨true, false, false⟩, ⟨true, false, false⟩⟩ : MouseState).reset_key
            .right).reset_key .right
          = (⟨⟨true, false, false⟩, ⟨true, false, false⟩⟩ : MouseState).reset_key .right) :=
  ⟨by decide, C5_amended ⟨⟨true, false, false⟩, ⟨true, false, false⟩⟩ .right 2 3 (by decide)⟩

/-- The buttons whose gesture state the mediator tracks. -/
def MouseButton.tracked : MouseButton → Bool
  | .left => true
  | .middle => true
  | .right => true
  | _ => false

/-- A full down / n moves / up gesture on one button (payload coordinates
are irrelevant to the gesture machine and fixed at 0). -/
def clickCycle (b : MouseButton) (n : Nat) : List RawEvent :=
  RawEvent.buttonDown b 0 0
    :: (List.replicate n (RawEvent.motion 0 0 0 0) ++ [RawEvent.buttonUp b 0 0])

def isGestureEnd (p : Event × Option EventData) : Bool :=
  match p.1 with
  | .click _ => true
  | .dragEnd _ => true
  | _ => false

/-- The Click/DragEnd events among a frame output, in emission order. -/
def gestureEnds (es : EventSet) : List Event :=
  (es.filter isGestureEnd).map (·.1)

/-- Mediator state right after a button-down on `b` from the initial state. -/
def downState (b : MouseButton) : MouseState :=
  ⟨MouseKeysState.init.set_button b true, MouseKeysState.init⟩

/-- Mediator state after the first pointer move while `b` is down. -/
def dragState (b : MouseButton) : MouseState :=
  ⟨MouseKeysState.init.set_button b true, MouseKeysState.init.set_button b true⟩

lemma gestureEnds_append (a b : EventSet) :
    gestureEnds (a ++ b) = gestureEnds a ++ gestureEnds b := by
  simp [gestureEnds]

lemma gestureEnds_nil : gestureEnds [] = [] := rfl

lemma gestureEnds_cons_skip {p : Event × Option EventData} {es : EventSet}
    (h : isGestureEnd p = false) : gestureEnds (p :: es) = gestureEnds es := by
  simp [gestureEnds, List.filter_cons, h]

lemma gestureEnds_cons_keep {p : Event × Option EventData} {es : EventSet}
    (h : isGestureEnd p = true) : gestureEnds (p :: es) = p.1 :: gestureEnds es := by
  simp [gestureEnds, List.filter_cons, h]

lemma pumpStep_init_down (b : MouseButton) :
    pumpStep MouseState.init (RawEvent.buttonDown b 0 0)
      = (downState b, [(Event.mouseButtonDown b, none)]) := rfl

lemma pumpStep_downState_motion (b : MouseButton) (hb : b.tracked = true) :
    pumpStep (downState b) (RawEvent.motion 0 0 0 0)
      = (dragState b,
         [(Event.dragStart b, some (EventData.fcoordinate 0 0)), (Event.mouseMove, none)]) := by
  cases b <;> revert hb <;> decide

lemma pumpStep_dragState_motion (b : MouseButton) (hb : b.tracked = true) :
    pumpStep (dragState b) (RawEvent.motion 0 0 0 0)
      = (dragState b,
         [(Event.drag b, some (EventData.difference 0 0 0 0)), (Event.mouseMove, none)]) := by
  cases b <;> revert hb <;> decide

lemma pumpStep_downState_up (b : MouseButton) (hb : b.tracked = true) :
    pumpStep (downState b) (RawEvent.buttonUp b 0 0)
      = (MouseState.init, [(Event.click b, some (EventData.fcoordinate 0 0))]) := by
  cases b <;> revert hb <;> decide

lemma pumpStep_dragState_up (b : MouseButton) (hb : b.tracked = true) :
    pumpStep (dragState b) (RawEvent.buttonUp b 0 0)
      = (MouseState.init, [(Event.dragEnd b, some (EventData.fcoordinate 0 0))]) := by
  cases b <;> revert hb <;> decide

lemma pumpEvents_append (st : MouseState) (l1 l2 : List RawEvent) :
    pumpEvents st (l1 ++ l2)
      = ((pumpEvents (pumpEvents st l1).1 l2).1,
         (pumpEvents st l1).2 ++ (pumpEvents (pumpEvents st l1).1 l2).2) := by
  induction l1 generalizing st with
  | nil => simp [pumpEvents]
  | cons e rest ih => simp [pumpEvents, ih]

lemma pump_replicate_drag (b : MouseButton) (hb : b.tracked = true) (n : Nat) :
    (pumpEvents (dragState b) (List.replicate n (RawEvent.motion 0 0 0 0))).1 = dragState b
    ∧ gestureEnds (pumpEvents (dragState b) (List.replicate n (RawEvent.motion 0 0 0 0))).2
        = [] := by
  induction n with
  | zero => exact ⟨rfl, rfl⟩
  | succ n ih =>
      have hstep := pumpStep_dragState_motion b hb
      refine ⟨?_, ?_⟩
      · simp [List.replicate_succ, pumpEvents, hstep, ih.1]
      · simp [List.replicate_succ, pumpEvents, hstep, gestureEnds_cons_skip,
              isGestureEnd, ih.2]

/-- One full cycle returns the gesture state to the initial one and emits
exactly one gesture-end event: a Click when there was no move, a DragEnd
when there was at least one. -/
lemma pump_cycle (b : MouseButton) (hb : b.tracked = true) (n : Nat) :
    (pumpEvents MouseState.init (clickCycle b n)).1 = MouseState.init
    ∧ gestureEnds (pumpEvents MouseState.init (clickCycle b n)).2
        = [if n = 0 then Event.click b else Event.dragEnd b] := by
  cases n with
  | zero =>
      refine ⟨?_, ?_⟩ <;>
        simp [clickCycle, pumpEvents, pumpStep_init_down, pumpStep_downState_up b hb,
              gestureEnds_cons_skip, gestureEnds_cons_keep, gestureEnds_nil, isGestureEnd]
  | succ n =>
      have hrep := pump_replicate_drag b hb n
      refine ⟨?_, ?_⟩ <;>
        simp [clickCycle, List.replicate_succ, pumpEvents, pumpEvents_append,
              pumpStep_init_down, pumpStep_downState_motion b hb, hrep.1, hrep.2,
              pumpStep_dragState_up b hb, gestureEnds_append, gestureEnds_cons_skip,
              gestureEnds_cons_keep, gestureEnds_nil, isGestureEnd]

/-- C6: for every sequence of down / n·moves / up cycles on a single
tracked button with no other button's events interleaved, each button-up
emits exactly one of {Click, DragEnd}, and it is DragEnd exactly when at
least one pointer move occurred between the down and the up. -/
theorem C6_theorem (b : MouseButton) (hb : b.tracked = true) (ns : List Nat) :
    gestureEnds (pumpEvents MouseState.init ((ns.map (clickCycle b)).join)).2
      = ns.map (fun n => if n = 0 then Event.click b else Event.dragEnd b) := by
  induction ns with
  | nil => rfl
  | cons n rest ih =>
      have hcyc := pump_cycle b hb n
      simp only [List.map_cons, List.join_cons, pumpEvents_append, gestureEnds_append,
                 hcyc.1, hcyc.2, ih]
      simp

/-- Witness for C6: on the left button, a moveless cycle then a cycle with
two moves emit exactly a Click then a DragEnd. -/
theorem C6_witness :
    MouseButton.tracked .left = true
    ∧ gestureEnds (pumpEvents MouseState.init (([0, 2].map (clickCycle .left)).join)).2
        = [0, 2].map (fun n => if n = 0 then Event.click .left else Event.dragEnd .left) :=
  ⟨by decide, C6_theorem .left (by decide) [0, 2]⟩

/-! ## Drag behavior theorem (C2) -/

/-- C2 failing input: frame 1 delivers a raw left-button-down, which the
behavior records in `key_state.left`; frame 2 delivers the first pointer
move while the button is down, so the frame's semantic event set marks a
drag start (`DragStart(Left)` is present). Yet `GremlinDrag::update`
sends no task at all and leaves the task queue untouched, because its grab
branch fires only when the `MouseMove` entry carries a `Coordinate`
payload, and `pump_events` always records `MouseMove` with no payload (the
`MouseMotion` arm never sets `ev_data`). -/
theorem C2_failing :
    (getEvent
        (pumpEvents (pumpEvents MouseState.init [RawEvent.buttonDown .left 5 5]).1
          [RawEvent.motion 6 6 1 1]).2
        (Event.dragStart .left)).isSome = true
    ∧ getEvent
        (pumpEvents (pumpEvents MouseState.init [RawEvent.buttonDown .left 5 5]).1
          [RawEvent.motion 6 6 1 1]).2 Event.mouseMove = some none
    ∧ gremlinDragUpdate
        (gremlinDragUpdate GremlinDragState.init
          (pumpEvents MouseState.init [RawEvent.buttonDown .left 5 5]).2
          [GremlinTask.play "IDLE"]).1
        (pumpEvents (pumpEvents MouseState.init [RawEvent.buttonDown .left 5 5]).1
          [RawEvent.motion 6 6 1 1]).2
        [GremlinTask.play "IDLE"]
      = (⟨false, ⟨true, false, false⟩, false, false, 0, 0⟩, [],
         [GremlinTask.play "IDLE"]) := by
  decide

end DGremlin
